import Mathlib

/-
Verification of the controller layer of the s21 3D-model viewer
(src/controller/controller.h).  The repository provides only the controller
header: the implementations of Controller, Model, Axis and TransformParametrs
are declared there and in the spec but their source is not included, so the
definitions below are shallow embeddings modelled from the specification's
description of those components.  The scalar type is kept polymorphic over a
field so that the development is executable at ℚ and can also be instantiated
at ℝ where the exact value of π matters.
-/

namespace S21

/-- Modelled from the spec: the `Axis` enumeration from `axis.h` (whose source
is not included): one of the three orthogonal spatial directions X, Y, Z,
used purely for dispatch/indexing. -/
inductive Axis : Type where
  | X
  | Y
  | Z
  deriving DecidableEq, Repr

/-- A triple of scalar components indexed by axis. -/
structure Vec3 (α : Type) where
  x : α
  y : α
  z : α
  deriving DecidableEq, Repr

namespace Vec3

/-- Read the component of a vector selected by an axis. -/
def get {α : Type} (v : Vec3 α) (axis : Axis) : α :=
  match axis with
  | .X => v.x
  | .Y => v.y
  | .Z => v.z

/-- Add a value to the component selected by an axis, leaving the others. -/
def addAt {α : Type} [Add α] (v : Vec3 α) (axis : Axis) (value : α) : Vec3 α :=
  match axis with
  | .X => { v with x := v.x + value }
  | .Y => { v with y := v.y + value }
  | .Z => { v with z := v.z + value }

/-- Componentwise addition of two triples. -/
def add {α : Type} [Add α] (v w : Vec3 α) : Vec3 α :=
  ⟨v.x + w.x, v.y + w.y, v.z + w.z⟩

end Vec3

/-- Modelled from the spec: `TransformParametrs` (source not included), the
accumulator holding pending translation (3 components), rotation (3 components,
in radians) and a uniform scale. -/
structure TransformParametrs (α : Type) where
  translation : Vec3 α
  rotation : Vec3 α
  scale : α
  deriving DecidableEq, Repr

/-- Modelled from the spec: the identity accumulator value — zero translation,
zero rotation, neutral (multiplicative unit) scale. -/
def identityTransform {α : Type} [Field α] : TransformParametrs α :=
  ⟨⟨0, 0, 0⟩, ⟨0, 0, 0⟩, 1⟩

/-- Vertex/face data as handed from Model to View. -/
structure Geometry (α : Type) where
  vertices : List (Vec3 α)
  faces : List (List Nat)
  deriving DecidableEq, Repr

/-- Modelled from the spec: the Model collaborator owns vertex/face data and a
current cumulative transform state, mutated only through `applyTransform`. -/
structure Model (α : Type) where
  geometry : Geometry α
  transform : TransformParametrs α
  deriving DecidableEq, Repr

/-- Modelled from the spec: `Model.applyTransform` commits an accumulated delta
into the Model's cumulative transform state (translations and rotations
compose additively, uniform scales multiplicatively); geometry data is
untouched. -/
def Model.applyTransform {α : Type} [Field α] (m : Model α)
    (d : TransformParametrs α) : Model α :=
  { m with transform :=
      ⟨m.transform.translation.add d.translation,
       m.transform.rotation.add d.rotation,
       m.transform.scale * d.scale⟩ }

/-- The controller's state: the controller-owned accumulator `delta`
(field `delta_` in controller.h), the Model it points to, and observation
logs of the outbound calls it issues — the geometry snapshots pushed to the
View's display operation, and the transforms delivered to
`Model.applyTransform`. -/
structure ControllerState (α : Type) where
  delta : TransformParametrs α
  model : Model α
  viewDisplayLog : List (Geometry α)
  modelApplyLog : List (TransformParametrs α)
  deriving DecidableEq, Repr

/-- Modelled from the spec: at construction the controller's accumulator is
the identity and no calls to Model or View have been issued yet. -/
def ControllerState.init {α : Type} [Field α] (m : Model α) : ControllerState α :=
  ⟨identityTransform, m, [], []⟩

/-- Degrees-to-radians conversion used by the rotation handler; `piVal` is the
value of π of the scalar field. -/
def degToRad {α : Type} [Field α] (piVal value : α) : α :=
  value * piVal / 180

/-- Modelled from the spec: `Controller::OnMoveChanged(value, axis)` adds
`value` to the translation component of `delta_` selected by `axis`. -/
def OnMoveChanged {α : Type} [Field α] (s : ControllerState α) (value : α)
    (axis : Axis) : ControllerState α :=
  { s with delta :=
      { s.delta with translation := s.delta.translation.addAt axis value } }

/-- Modelled from the spec: `Controller::OnRotateChanged(value, axis)` converts
`value` from degrees to radians and adds it to the rotation component of
`delta_` selected by `axis`. -/
def OnRotateChanged {α : Type} [Field α] (piVal : α) (s : ControllerState α)
    (value : α) (axis : Axis) : ControllerState α :=
  { s with delta :=
      { s.delta with rotation :=
          s.delta.rotation.addAt axis (degToRad piVal value) } }

/-- Modelled from the spec: `Controller::OnScaleChanged(value)` sets (does not
accumulate) the uniform scale field of `delta_` to `value`. -/
def OnScaleChanged {α : Type} [Field α] (s : ControllerState α) (value : α) :
    ControllerState α :=
  { s with delta := { s.delta with scale := value } }

/-- Modelled from the spec: `Controller::UpdateModel()` commits `delta_` to the
Model via a single `applyTransform` call, resets `delta_` to the identity, and
then requests the View to display the Model's current geometry. -/
def UpdateModel {α : Type} [Field α] (s : ControllerState α) : ControllerState α :=
  let m := s.model.applyTransform s.delta
  { s with model := m,
           delta := identityTransform,
           modelApplyLog := s.modelApplyLog ++ [s.delta],
           viewDisplayLog := s.viewDisplayLog ++ [m.geometry] }

/-- Modelled from the spec: `Controller::LoadModel(path)` asks Model to parse
the file at `path` (the parse outcome is abstracted as the function `fsys`).
On success the parsed geometry replaces the Model's and is forwarded verbatim
to the View's display operation; on failure the parse error is surfaced to the
caller unchanged and nothing else happens. -/
def LoadModel {α : Type} [Field α] (fsys : String → Except String (Geometry α))
    (s : ControllerState α) (path : String) :
    ControllerState α × Except String Unit :=
  match fsys path with
  | .error e => (s, .error e)
  | .ok g =>
      ({ s with model := { s.model with geometry := g },
                viewDisplayLog := s.viewDisplayLog ++ [g] }, .ok ())

/-- An interaction event emitted by the View and handled by the controller. -/
inductive Event (α : Type) where
  | move (value : α) (axis : Axis)
  | rotate (value : α) (axis : Axis)
  | scale (value : α)
  | commit
  deriving DecidableEq, Repr

/-- Dispatch a single View event to the corresponding controller slot. -/
def step {α : Type} [Field α] (piVal : α) (s : ControllerState α) :
    Event α → ControllerState α
  | .move v a => OnMoveChanged s v a
  | .rotate v a => OnRotateChanged piVal s v a
  | .scale v => OnScaleChanged s v
  | .commit => UpdateModel s

/-- Run a sequence of View events through the controller. -/
def run {α : Type} [Field α] (piVal : α) (s : ControllerState α)
    (es : List (Event α)) : ControllerState α :=
  es.foldl (step piVal) s

/-- A concrete Model value used by witnesses: empty geometry, identity
cumulative transform. -/
def sampleModel : Model ℚ := ⟨⟨[], []⟩, identityTransform⟩

/-- A concrete controller state used by witnesses. -/
def sampleState : ControllerState ℚ := ControllerState.init sampleModel

theorem Vec3.get_addAt_self {α : Type} [Add α] (v : Vec3 α) (a : Axis)
    (value : α) : (v.addAt a value).get a = v.get a + value := by
  cases a <;> rfl

theorem Vec3.get_addAt_of_ne {α : Type} [Add α] (v : Vec3 α) (a b : Axis)
    (value : α) (h : b ≠ a) : (v.addAt a value).get b = v.get b := by
  cases a <;> cases b <;> first | rfl | exact absurd rfl h

theorem Model.applyTransform_identity {α : Type} [Field α] (m : Model α) :
    m.applyTransform identityTransform = m := by
  obtain ⟨g, ⟨⟨tx, ty, tz⟩, ⟨rx, ry, rz⟩, sc⟩⟩ := m
  simp [Model.applyTransform, identityTransform, Vec3.add]

theorem run_moves_get {α : Type} [Field α] (piVal : α) (vs : List α) (a : Axis)
    (s : ControllerState α) :
    (run piVal s (vs.map (fun v => Event.move v a))).delta.translation.get a
      = s.delta.translation.get a + vs.sum := by
  induction vs generalizing s with
  | nil => simp [run]
  | cons v vs ih =>
      have h := ih (OnMoveChanged s v a)
      simp only [List.map_cons, run, List.foldl_cons, step] at h ⊢
      rw [h]
      show (s.delta.translation.addAt a v).get a + vs.sum = _
      rw [Vec3.get_addAt_self, add_assoc, List.sum_cons]

theorem run_moves_get_of_ne {α : Type} [Field α] (piVal : α) (vs : List α)
    (a b : Axis) (s : ControllerState α) (h : b ≠ a) :
    (run piVal s (vs.map (fun v => Event.move v a))).delta.translation.get b
      = s.delta.translation.get b := by
  induction vs generalizing s with
  | nil => simp [run]
  | cons v vs ih =>
      have h1 := ih (OnMoveChanged s v a)
      simp only [List.map_cons, run, List.foldl_cons, step] at h1 ⊢
      rw [h1]
      exact Vec3.get_addAt_of_ne _ _ _ _ h

theorem run_rotates_get {α : Type} [Field α] (piVal : α) (vs : List α)
    (a : Axis) (s : ControllerState α) :
    (run piVal s (vs.map (fun v => Event.rotate v a))).delta.rotation.get a
      = s.delta.rotation.get a + (vs.map (degToRad piVal)).sum := by
  induction vs generalizing s with
  | nil => simp [run]
  | cons v vs ih =>
      have h := ih (OnRotateChanged piVal s v a)
      simp only [List.map_cons, run, List.foldl_cons, step] at h ⊢
      rw [h]
      show (s.delta.rotation.addAt a (degToRad piVal v)).get a + _ = _
      rw [Vec3.get_addAt_self, add_assoc, List.sum_cons]

theorem run_rotates_get_of_ne {α : Type} [Field α] (piVal : α) (vs : List α)
    (a b : Axis) (s : ControllerState α) (h : b ≠ a) :
    (run piVal s (vs.map (fun v => Event.rotate v a))).delta.rotation.get b
      = s.delta.rotation.get b := by
  induction vs generalizing s with
  | nil => simp [run]
  | cons v vs ih =>
      have h1 := ih (OnRotateChanged piVal s v a)
      simp only [List.map_cons, run, List.foldl_cons, step] at h1 ⊢
      rw [h1]
      exact Vec3.get_addAt_of_ne _ _ _ _ h

/-- Claim C1: before a commit, a sequence of OnMoveChanged calls on one axis
accumulates the arithmetic sum of the passed values into that translation
component of delta_, leaving the translation components of the other axes
unchanged; in particular OnMoveChanged(2,X), OnMoveChanged(3,X),
OnMoveChanged(-1,Y) followed by UpdateModel delivers the translation
(5, -1, 0) to the Model. -/
theorem c1_move_accumulates_sum :
    (∀ (piVal : ℚ) (vs : List ℚ) (a b : Axis) (s : ControllerState ℚ),
        (run piVal s (vs.map (fun v => Event.move v a))).delta.translation.get a
            = s.delta.translation.get a + vs.sum
        ∧ (b ≠ a →
            (run piVal s
                (vs.map (fun v => Event.move v a))).delta.translation.get b
              = s.delta.translation.get b))
    ∧ ∀ (piVal : ℚ) (m : Model ℚ),
        (run piVal (ControllerState.init m)
            [Event.move 2 Axis.X, Event.move 3 Axis.X,
             Event.move (-1) Axis.Y, Event.commit]).modelApplyLog
          = [⟨⟨5, -1, 0⟩, ⟨0, 0, 0⟩, 1⟩] := by
  constructor
  · intro piVal vs a b s
    exact ⟨run_moves_get piVal vs a s,
           fun h => run_moves_get_of_ne piVal vs a b s h⟩
  · intro piVal m
    simp [run, step, OnMoveChanged, UpdateModel, ControllerState.init,
          identityTransform, Vec3.addAt]
    norm_num

/-- Claim C1 witness: the general conjunct instantiated with the value list
[2, 3] on axis X, the distinct axis Y, and the initial controller state over
the sample model. -/
theorem c1_move_accumulates_sum_witness :
    Axis.Y ≠ Axis.X
    ∧ ((run 0 sampleState
          ([2, 3].map (fun v : ℚ => Event.move v Axis.X))).delta.translation.get
            Axis.X
        = sampleState.delta.translation.get Axis.X + ([2, 3] : List ℚ).sum
      ∧ (Axis.Y ≠ Axis.X →
          (run 0 sampleState
              ([2, 3].map
                (fun v : ℚ => Event.move v Axis.X))).delta.translation.get
              Axis.Y
            = sampleState.delta.translation.get Axis.Y)) :=
  ⟨by decide, c1_move_accumulates_sum.1 0 [2, 3] Axis.X Axis.Y sampleState⟩

/-- Claim C2: every OnRotateChanged call converts its value from degrees to
radians before adding it to the rotation component of delta_ selected by the
axis, so a sequence of calls on one axis accumulates the sum of the
individually converted inputs; in particular OnRotateChanged(90, Z) followed
by UpdateModel delivers a Z rotation of exactly π/2 radians (≈ 1.5708) to the
Model. -/
theorem c2_rotate_converts_degrees :
    (∀ (vs : List ℝ) (a b : Axis) (s : ControllerState ℝ),
        (run Real.pi s
            (vs.map (fun v => Event.rotate v a))).delta.rotation.get a
            = s.delta.rotation.get a + (vs.map (degToRad Real.pi)).sum
        ∧ (b ≠ a →
            (run Real.pi s
                (vs.map (fun v => Event.rotate v a))).delta.rotation.get b
              = s.delta.rotation.get b))
    ∧ ∀ (m : Model ℝ),
        (run Real.pi (ControllerState.init m)
            [Event.rotate 90 Axis.Z, Event.commit]).modelApplyLog
          = [⟨⟨0, 0, 0⟩, ⟨0, 0, Real.pi / 2⟩, 1⟩] := by
  constructor
  · intro vs a b s
    exact ⟨run_rotates_get Real.pi vs a s,
           fun h => run_rotates_get_of_ne Real.pi vs a b s h⟩
  · intro m
    simp [run, step, OnRotateChanged, UpdateModel, ControllerState.init,
          identityTransform, Vec3.addAt, degToRad]
    ring

/-- Claim C2 witness: the general conjunct instantiated with the value list
[90] on axis Z, the distinct axis X, and the initial controller state over an
empty real-scalar model. -/
theorem c2_rotate_converts_degrees_witness :
    Axis.X ≠ Axis.Z
    ∧ ((run Real.pi (ControllerState.init ⟨⟨[], []⟩, identityTransform⟩)
          ([90].map (fun v : ℝ => Event.rotate v Axis.Z))).delta.rotation.get
            Axis.Z
        = (ControllerState.init
            ⟨⟨[], []⟩, identityTransform⟩).delta.rotation.get Axis.Z
          + (([90] : List ℝ).map (degToRad Real.pi)).sum
      ∧ (Axis.X ≠ Axis.Z →
          (run Real.pi (ControllerState.init ⟨⟨[], []⟩, identityTransform⟩)
              ([90].map (fun v : ℝ => Event.rotate v Axis.Z))).delta.rotation.get
              Axis.X
            = (ControllerState.init
                ⟨⟨[], []⟩, identityTransform⟩).delta.rotation.get Axis.X)) :=
  ⟨by decide,
   c2_rotate_converts_degrees.1 [90] Axis.Z Axis.X
     (ControllerState.init ⟨⟨[], []⟩, identityTransform⟩)⟩

/-- Claim C3: OnScaleChanged overwrites rather than accumulates — calling it
with v and then immediately with w leaves the pending scale equal to w; in
particular with v = w = 1 the result is 1, not v + w = 2. -/
theorem c3_scale_overwrites :
    (∀ (v w : ℚ) (s : ControllerState ℚ),
        (OnScaleChanged (OnScaleChanged s v) w).delta.scale = w)
    ∧ (OnScaleChanged (OnScaleChanged sampleState 1) 1).delta.scale
        ≠ (1 : ℚ) + 1 := by
  exact ⟨fun v w s => rfl, show (1 : ℚ) ≠ 1 + 1 by norm_num⟩

/-- Claim C3 witness: the overwrite conjunct instantiated at the scale values
2 then 3 from the sample state. -/
theorem c3_scale_overwrites_witness :
    (OnScaleChanged (OnScaleChanged sampleState 2) 3).delta.scale = 3 :=
  c3_scale_overwrites.1 2 3 sampleState

/-- Claim C4: after every call to UpdateModel the accumulator delta_ is reset
to the identity transform: zero translation, zero rotation, neutral scale. -/
theorem c4_commit_resets_delta :
    ∀ (s : ControllerState ℚ), (UpdateModel s).delta = identityTransform :=
  fun _ => rfl

/-- A parse outcome that fails on every path, used by witnesses. -/
def missingFsys : String → Except String (Geometry ℚ) :=
  fun _ => Except.error "no such file"

/-- A parse outcome that succeeds with empty geometry on every path, used by
witnesses. -/
def okFsys : String → Except String (Geometry ℚ) :=
  fun _ => Except.ok ⟨[], []⟩

/-- Claim C5: when the underlying parse fails, LoadModel surfaces the failure
to its caller unchanged and leaves the controller state — in particular the
View display log — untouched, so the display operation is never invoked for
that load; when the parse succeeds, the full vertex/face set is forwarded to
the View. -/
theorem c5_load_failure_surfaced :
    ∀ (fsys : String → Except String (Geometry ℚ)) (s : ControllerState ℚ)
      (path : String),
      (∀ e, fsys path = Except.error e →
          LoadModel fsys s path = (s, Except.error e))
      ∧ (∀ g, fsys path = Except.ok g →
          (LoadModel fsys s path).1.viewDisplayLog = s.viewDisplayLog ++ [g]
          ∧ (LoadModel fsys s path).2 = Except.ok ()) := by
  intro fsys s path
  constructor
  · intro e h
    simp [LoadModel, h]
  · intro g h
    simp [LoadModel, h]

/-- Claim C5 witness: the failure branch at a parse that fails on
"missing.obj", and the success branch at a parse that returns empty
geometry. -/
theorem c5_load_failure_surfaced_witness :
    (missingFsys "missing.obj" = Except.error "no such file"
      ∧ LoadModel missingFsys sampleState "missing.obj"
          = (sampleState, Except.error "no such file"))
    ∧ (okFsys "model.obj" = Except.ok ⟨[], []⟩
      ∧ (LoadModel okFsys sampleState "model.obj").1.viewDisplayLog
          = sampleState.viewDisplayLog ++ [⟨[], []⟩]
      ∧ (LoadModel okFsys sampleState "model.obj").2 = Except.ok ()) :=
  ⟨⟨rfl,
    (c5_load_failure_surfaced missingFsys sampleState "missing.obj").1
      "no such file" rfl⟩,
   ⟨rfl,
    (c5_load_failure_surfaced okFsys sampleState "model.obj").2 ⟨[], []⟩ rfl⟩⟩

/-- Claim C6: calling UpdateModel while delta_ is the all-identity accumulator
(for example immediately after construction) leaves the Model's state
unchanged; the operation is total, so it cannot fail. -/
theorem c6_identity_commit_noop :
    ∀ (s : ControllerState ℚ), s.delta = identityTransform →
      (UpdateModel s).model = s.model := by
  intro s h
  show s.model.applyTransform s.delta = s.model
  rw [h, Model.applyTransform_identity]

/-- Claim C6 witness: the freshly constructed controller state has the
identity accumulator and committing it leaves the sample model unchanged. -/
theorem c6_identity_commit_noop_witness :
    sampleState.delta = identityTransform
    ∧ (UpdateModel sampleState).model = sampleState.model :=
  ⟨rfl, c6_identity_commit_noop sampleState rfl⟩

/-- Claim C7: each per-field handler mutates only the controller-owned
accumulator delta_ — the Model state, the View display log and the
applyTransform call log are untouched — and performs no validation on its
input: the value is added (move, rotate after degree-to-radian conversion) or
stored (scale) exactly as passed; the handlers are total functions, so they
cannot fail. -/
theorem c7_handlers_only_delta :
    ∀ (piVal v : ℚ) (a : Axis) (s : ControllerState ℚ),
      ((OnMoveChanged s v a).model = s.model
        ∧ (OnMoveChanged s v a).viewDisplayLog = s.viewDisplayLog
        ∧ (OnMoveChanged s v a).modelApplyLog = s.modelApplyLog)
      ∧ ((OnRotateChanged piVal s v a).model = s.model
        ∧ (OnRotateChanged piVal s v a).viewDisplayLog = s.viewDisplayLog
        ∧ (OnRotateChanged piVal s v a).modelApplyLog = s.modelApplyLog)
      ∧ ((OnScaleChanged s v).model = s.model
        ∧ (OnScaleChanged s v).viewDisplayLog = s.viewDisplayLog
        ∧ (OnScaleChanged s v).modelApplyLog = s.modelApplyLog)
      ∧ (OnMoveChanged s v a).delta.translation.get a
          = s.delta.translation.get a + v
      ∧ (OnRotateChanged piVal s v a).delta.rotation.get a
          = s.delta.rotation.get a + degToRad piVal v
      ∧ (OnScaleChanged s v).delta.scale = v := by
  intro piVal v a s
  exact ⟨⟨rfl, rfl, rfl⟩, ⟨rfl, rfl, rfl⟩, ⟨rfl, rfl, rfl⟩,
         Vec3.get_addAt_self _ _ _, Vec3.get_addAt_self _ _ _, rfl⟩

/-- Claim C8: handler calls targeting distinct axes commute — applying
OnMoveChanged on axis a then axis b yields the same controller state as the
opposite order, and likewise for OnRotateChanged. -/
theorem c8_distinct_axes_commute :
    ∀ (piVal v w : ℚ) (a b : Axis) (s : ControllerState ℚ), a ≠ b →
      OnMoveChanged (OnMoveChanged s v a) w b
          = OnMoveChanged (OnMoveChanged s w b) v a
      ∧ OnRotateChanged piVal (OnRotateChanged piVal s v a) w b
          = OnRotateChanged piVal (OnRotateChanged piVal s w b) v a := by
  intro piVal v w a b s hab
  refine ⟨?_, ?_⟩ <;>
    cases a <;> cases b <;> first | rfl | exact absurd rfl hab

/-- Claim C8 witness: the move and rotate handlers applied at values 2 and 3
on the distinct axes X and Y from the sample state commute. -/
theorem c8_distinct_axes_commute_witness :
    Axis.X ≠ Axis.Y
    ∧ OnMoveChanged (OnMoveChanged sampleState 2 Axis.X) 3 Axis.Y
        = OnMoveChanged (OnMoveChanged sampleState 3 Axis.Y) 2 Axis.X
    ∧ OnRotateChanged 3 (OnRotateChanged 3 sampleState 2 Axis.X) 3 Axis.Y
        = OnRotateChanged 3 (OnRotateChanged 3 sampleState 3 Axis.Y) 2 Axis.X :=
  ⟨by decide,
   (c8_distinct_axes_commute 3 2 3 Axis.X Axis.Y sampleState (by decide)).1,
   (c8_distinct_axes_commute 3 2 3 Axis.X Axis.Y sampleState (by decide)).2⟩

/-- Claim C9: LoadModel leaves the pending accumulator delta_ unchanged, for
every path and every pending state, whether the load succeeds or fails. -/
theorem c9_load_preserves_delta :
    ∀ (fsys : String → Except String (Geometry ℚ)) (s : ControllerState ℚ)
      (path : String), (LoadModel fsys s path).1.delta = s.delta := by
  intro fsys s path
  rcases h : fsys path with e | g <;> simp [LoadModel, h]

/-- Claim C10: the controller is deterministic — running the same sequence of
handler events from equal initial states yields equal final states, and in
particular equal pending accumulators and equal sequences of transforms
delivered to the Model; the result depends on nothing but the event list and
the initial state. -/
theorem c10_deterministic :
    ∀ (piVal : ℚ) (es : List (Event ℚ)) (s1 s2 : ControllerState ℚ),
      s1 = s2 →
      run piVal s1 es = run piVal s2 es
      ∧ (run piVal s1 es).delta = (run piVal s2 es).delta
      ∧ (run piVal s1 es).modelApplyLog = (run piVal s2 es).modelApplyLog := by
  intro piVal es s1 s2 h
  subst h
  exact ⟨rfl, rfl, rfl⟩

/-- Claim C10 witness: two runs of a concrete event sequence from the same
sample state agree. -/
theorem c10_deterministic_witness :
    sampleState = sampleState
    ∧ (run 3 sampleState [Event.move 2 Axis.X, Event.commit]
        = run 3 sampleState [Event.move 2 Axis.X, Event.commit]
      ∧ (run 3 sampleState [Event.move 2 Axis.X, Event.commit]).delta
          = (run 3 sampleState [Event.move 2 Axis.X, Event.commit]).delta
      ∧ (run 3 sampleState [Event.move 2 Axis.X, Event.commit]).modelApplyLog
          = (run 3 sampleState
              [Event.move 2 Axis.X, Event.commit]).modelApplyLog) :=
  ⟨rfl, c10_deterministic 3 [Event.move 2 Axis.X, Event.commit]
          sampleState sampleState rfl⟩

end S21
